import Mathlib

/-!
Shallow embedding of `src/main.py` (PDF-Translator).

The program reads a config file (`read_api_config`), extracts per-page text
from a PDF, translates each non-blank page with one HTTP call
(`translate_text_via_api`), collects one record per page in page order
(the loop in `main`), and renders the records into a two-column document
(`create_translation_document`).

Python strings are modelled as Lean `String`; `str.strip()` as `pyStrip`
over the ASCII whitespace characters Python strips; the JSON response as a
typed structure carrying only the fields the code inspects; the network
call as an oracle `Nat → NetOutcome` giving the outcome of the k-th HTTP
POST, so the number of POSTs a code path performs is observable; Python
`str.format` with the three keyword arguments the code passes as
substitution over a template given as a list of tokens: literal pieces,
named placeholder fields (an unknown name raising the `KeyError` the code
catches), named fields with the `:d` presentation code, positional fields,
and lone braces — the last three raising the `ValueError`/`IndexError`
exceptions the code does not catch. Functions that can let an exception
escape to their caller return `Except FmtError`, with `Except.error` the
uncaught exception.
-/

namespace PdfTranslator

/-- The ASCII whitespace characters removed by Python `str.strip()`. -/
def isPySpace (c : Char) : Bool :=
  c == ' ' || c == '\t' || c == '\n' || c == '\r' || c == '\x0b' || c == '\x0c'

/-- Python `str.strip()` on the character list of a string. -/
def pyStripList (l : List Char) : List Char :=
  ((l.dropWhile isPySpace).reverse.dropWhile isPySpace).reverse

/-- Python `str.strip()`. -/
def pyStrip (s : String) : String :=
  ⟨pyStripList s.data⟩

/-- Constant `DEFAULT_FONT = "Arial"` (src/main.py line 12). -/
def DEFAULT_FONT : String := "Arial"

/-- A token of a Python format string:
a literal piece; a plain named replacement field `\x7bname\x7d`; a named
field carrying the integer presentation code, `\x7bname:d\x7d`; a
positional field, `\x7b\x7d` (auto-numbering, `idx` = `none`) or
`\x7bk\x7d`; or a lone unmatched brace in the template text. -/
inductive TTok where
  | lit (s : String)
  | ph (name : String)
  | phIntSpec (name : String)
  | pos (idx : Option Nat)
  | loneBrace
deriving DecidableEq, Repr

/-- The exception classes `str.format` can raise here. The code catches
only `KeyError` (src/main.py line 218); an `IndexError` or `ValueError`
propagates uncaught out of `translate_text_via_api`. -/
inductive FmtError where
  | keyError (name : String)
  | indexError
  | valueError (msg : String)
deriving DecidableEq, Repr

/-- The keyword arguments of the `format` call (src/main.py lines
213-217): exactly `source_language`, `target_language` and
`text_to_translate` are passed; no positional arguments. -/
def kwLookup (srcLang tgtLang text : String) (name : String) : Option String :=
  if name = "source_language" then some srcLang
  else if name = "target_language" then some tgtLang
  else if name = "text_to_translate" then some text
  else none

/-- One replacement step of `prompt_template.format(...)`:
a plain named field looks its name up among the keyword arguments, an
unknown name raising `KeyError`; a `\x7bname:d\x7d` field looks the name
up first (`KeyError` if unknown), then raises `ValueError` because the
code `d` is invalid for a `str` value (Python's message names the code
and type); a positional field raises `IndexError` since the call passes
no positional arguments; a lone brace raises `ValueError` while the
template is parsed (Python's message names the brace character). -/
def subst (srcLang tgtLang text : String) : TTok → Except FmtError String
  | TTok.lit l => Except.ok l
  | TTok.ph name =>
      match kwLookup srcLang tgtLang text name with
      | some v => Except.ok v
      | none => Except.error (FmtError.keyError name)
  | TTok.phIntSpec name =>
      match kwLookup srcLang tgtLang text name with
      | some _ =>
          Except.error (FmtError.valueError "Unknown format code d for object of type str")
      | none => Except.error (FmtError.keyError name)
  | TTok.pos _ => Except.error FmtError.indexError
  | TTok.loneBrace =>
      Except.error (FmtError.valueError "Single brace encountered in format string")

/-- Python `str.format` over a token list: concatenates all substituted
pieces, or raises the leftmost field's exception (fields are processed
left to right). -/
def formatPrompt (tmpl : List TTok) (srcLang tgtLang text : String) :
    Except FmtError String :=
  match tmpl with
  | [] => Except.ok ""
  | tok :: rest =>
      match subst srcLang tgtLang text tok, formatPrompt rest srcLang tgtLang text with
      | Except.ok a, Except.ok b => Except.ok (a ++ b)
      | Except.error e, _ => Except.error e
      | _, Except.error e => Except.error e

/-- Constant `DEFAULT_PROMPT_TEMPLATE` (src/main.py line 13), as its token
list: three named placeholder fields, none of them a batch-context field. -/
def DEFAULT_PROMPT_TEMPLATE : List TTok :=
  [ TTok.lit "Translate the following ",
    TTok.ph "source_language",
    TTok.lit " text to ",
    TTok.ph "target_language",
    TTok.lit ". Provide only the translated text, without any introductory phrases, explanations, or the original text itself:\n\n",
    TTok.ph "text_to_translate" ]

/-- The plain named replacement fields occurring in a template. -/
def placeholderNames (tmpl : List TTok) : List String :=
  tmpl.filterMap (fun tok => match tok with
    | TTok.ph n => some n
    | _ => none)

/-- The `timeout=180` argument of the `requests.post` call
(src/main.py line 232). -/
def REQUEST_TIMEOUT_SECONDS : Nat := 180

/-- The `"message"` object of a choice: the code only reads its
`"content"` field (absent field modelled as `none`). -/
structure Message where
  content : Option String
deriving DecidableEq, Repr

/-- One element of the `"choices"` array: the code only reads its
`"message"` field. -/
structure Choice where
  message : Option Message
deriving DecidableEq, Repr

/-- The decoded JSON body of a backend response, restricted to the fields
src/main.py lines 237-243 inspect. -/
structure ResponseData where
  choices : Option (List Choice)
deriving DecidableEq, Repr

/-- The truthiness chain of src/main.py lines 237-241:
`response_data.get("choices") and isinstance(..., list) and len(...) > 0
and choices[0].get("message") and choices[0]["message"].get("content")`.
An empty content string is falsy in Python, hence counts as no content. -/
def hasContent (d : ResponseData) : Bool :=
  match d.choices with
  | some (c :: _) =>
      match c.message with
      | some m =>
          match m.content with
          | some s => !(s == "")
          | none => false
      | none => false
  | _ => false

/-- Field access `response_data["choices"][0]["message"]["content"]`, with
a default that is only reached when `hasContent` is false. -/
def contentOf (d : ResponseData) : String :=
  match d.choices with
  | some (c :: _) =>
      match c.message with
      | some m => m.content.getD ""
      | none => ""
  | _ => ""

/-- Response handling of src/main.py lines 235-248: return the stripped
content when the expected structure is present, otherwise return the
fixed string `"Error processing API response"` (no exception is raised). -/
def extractContent (d : ResponseData) : String :=
  if hasContent d then pyStrip (contentOf d)
  else "Error processing API response"

/-- Outcome of one `requests.post` call, as the code distinguishes them:
`timeout` is `requests.exceptions.Timeout`; `reqError e` is any other
`requests.exceptions.RequestException` (connection failure, or the
non-2xx `HTTPError` from `raise_for_status`) with message `e`;
`otherError e` is any other exception (e.g. `response.json()` failing)
with message `e`; `ok d` is a 2xx reply whose decoded body is `d`. -/
inductive NetOutcome where
  | timeout
  | reqError (e : String)
  | otherError (e : String)
  | ok (d : ResponseData)
deriving DecidableEq, Repr

/-- Function `translate_text_via_api` (src/main.py lines 200-263). A
normal return carries the returned string paired with the number of HTTP
POST calls the path performed; `Except.error` is an exception propagating
uncaught to the caller. Blank input returns `""` before any prompt is
built (lines 204-205). The `format` call is guarded by `except KeyError`
only (lines 211-222): a `KeyError` returns `"Error: Invalid prompt
template"` with no call, while an `IndexError` or `ValueError` from the
template escapes the function. Otherwise exactly one POST happens
(`net 0`) and every failure of it is caught by the handlers of lines
250-263 and turned into an error-message string. -/
def translate_text_via_api (text : String) (tmpl : List TTok)
    (srcLang tgtLang : String) (net : Nat → NetOutcome) :
    Except FmtError (String × Nat) :=
  if pyStrip text = "" then Except.ok ("", 0)
  else
    match formatPrompt tmpl srcLang tgtLang text with
    | Except.error (FmtError.keyError _) =>
        Except.ok ("Error: Invalid prompt template", 0)
    | Except.error e => Except.error e
    | Except.ok _finalPrompt =>
        match net 0 with
        | NetOutcome.timeout => Except.ok ("Translation error: Timeout", 1)
        | NetOutcome.reqError e => Except.ok ("Translation error: " ++ e, 1)
        | NetOutcome.otherError e => Except.ok ("Translation error: " ++ e, 1)
        | NetOutcome.ok d => Except.ok (extractContent d, 1)

/-- Number of HTTP POSTs one `translate_text_via_api` call performs: the
count a normal return records; an uncaught template exception is raised
before the request is built, so that path performs none. -/
def postCount (r : Except FmtError (String × Nat)) : Nat :=
  match r with
  | Except.ok p => p.2
  | Except.error _ => 0

/-- The tuple `read_api_config` returns (src/main.py lines 148-198):
`api_url`, `api_model`, `font_name`, `prompt_template`. The template is
kept as the raw config string here; when absent it is the literal
`DEFAULT_PROMPT_TEMPLATE` string. -/
structure ApiConfig where
  api_url : Option String
  api_model : Option String
  font_name : String
  prompt_template : String
deriving DecidableEq, Repr

/-- Lookup `section.get(key)` of `configparser` over the key/value pairs
of the `[API]` section. -/
def lookupKey (sec : List (String × String)) (key : String) : Option String :=
  (sec.find? (fun kv => kv.1 == key)).map Prod.snd

/-- The raw `DEFAULT_PROMPT_TEMPLATE` string literal (src/main.py line 13). -/
def DEFAULT_PROMPT_TEMPLATE_STR : String :=
  "Translate the following {source_language} text to {target_language}. Provide only the translated text, without any introductory phrases, explanations, or the original text itself:\n\n{text_to_translate}"

/-- Function `read_api_config` (src/main.py lines 148-198). `none` is both the
missing-file path (lines 159-165) and the missing-`[API]`-section path
(lines 185-187); both return `(None, None, DEFAULT_FONT,
DEFAULT_PROMPT_TEMPLATE)`. With a section, the code reads only the keys
`url`, `model`, `font_name` and `prompt_template`; an absent or empty
(falsy) `font_name` or `prompt_template` falls back to the default. -/
def read_api_config (apiSection : Option (List (String × String))) : ApiConfig :=
  match apiSection with
  | none =>
      { api_url := none, api_model := none,
        font_name := DEFAULT_FONT, prompt_template := DEFAULT_PROMPT_TEMPLATE_STR }
  | some sec =>
      { api_url := lookupKey sec "url"
        api_model := lookupKey sec "model"
        font_name :=
          match lookupKey sec "font_name" with
          | some f => if f = "" then DEFAULT_FONT else f
          | none => DEFAULT_FONT
        prompt_template :=
          match lookupKey sec "prompt_template" with
          | some p => if p = "" then DEFAULT_PROMPT_TEMPLATE_STR else p
          | none => DEFAULT_PROMPT_TEMPLATE_STR }

/-- One entry of `translated_page_data`: the dict
`\x7b'original': ..., 'translated': ...\x7d` (src/main.py lines 332, 338). -/
structure PageRecord where
  original : String
  translated : String
deriving DecidableEq, Repr

/-- The translation loop of `main` (src/main.py lines 330-338), with the
page index made explicit. A page that is empty or whitespace-only
contributes the record `("", "")` and makes no translation call; every
other page contributes `(text, tr i text)` where `tr i` is the
translation function applied to page `i`. Exactly one record is appended
per page, in page order. -/
def mainLoopAux (tr : Nat → String → String) : List String → Nat → List PageRecord
  | [], _ => []
  | t :: ts, i =>
      (if pyStrip t = "" then { original := "", translated := "" }
       else { original := t, translated := tr i t }) :: mainLoopAux tr ts (i + 1)

/-- List `translated_page_data` produced by `main` from the extracted page
texts, with `tr i text` the result of `translate_text_via_api` for page
`i` (the network may behave differently on each call). -/
def mainLoop (pages : List String) (tr : Nat → String → String) : List PageRecord :=
  mainLoopAux tr pages 0

/-- The translation loop of `main` with `translate_text_via_api` plugged
in and its possible uncaught exception threaded through: page `i` is
translated by one call whose POST outcomes are given by the oracle
`net i`; a blank page appends `("", "")` with no call; an exception
escaping `translate_text_via_api` aborts the whole run — no further pages
are processed and no record list is ever produced. -/
def mainLoopPyAux (tmpl : List TTok) (srcLang tgtLang : String)
    (net : Nat → Nat → NetOutcome) :
    List String → Nat → Except FmtError (List PageRecord)
  | [], _ => Except.ok []
  | t :: ts, i =>
      if pyStrip t = "" then
        match mainLoopPyAux tmpl srcLang tgtLang net ts (i + 1) with
        | Except.ok rs => Except.ok ({ original := "", translated := "" } :: rs)
        | Except.error e => Except.error e
      else
        match translate_text_via_api t tmpl srcLang tgtLang (net i) with
        | Except.error e => Except.error e
        | Except.ok r =>
            match mainLoopPyAux tmpl srcLang tgtLang net ts (i + 1) with
            | Except.ok rs => Except.ok ({ original := t, translated := r.1 } :: rs)
            | Except.error e => Except.error e

/-- The run of `main`'s translation phase on the extracted page texts:
either the full record list, or the uncaught exception that killed the
run. -/
def mainLoopPy (tmpl : List TTok) (srcLang tgtLang : String)
    (net : Nat → Nat → NetOutcome) (pages : List String) :
    Except FmtError (List PageRecord) :=
  mainLoopPyAux tmpl srcLang tgtLang net pages 0

/-- An empty cell text is rendered as a single space:
`add_run(original_text if original_text else " ")`
(src/main.py lines 122, 132). -/
def renderCell (s : String) : String :=
  if s = "" then " " else s

/-- One page section of the output document: the `Page i+1` heading number
and the two table cells (src/main.py lines 76-134). -/
structure DocPage where
  page_heading : Nat
  original_cell : String
  translated_cell : String
deriving DecidableEq, Repr

/-- The `for i, data in enumerate(page_data)` loop of
`create_translation_document` (src/main.py lines 76-137), with the
running index explicit: page `i` (0-based) gets heading number `i + 1`. -/
def docPagesAux : List PageRecord → Nat → List DocPage
  | [], _ => []
  | d :: ds, i =>
      { page_heading := i + 1,
        original_cell := renderCell d.original,
        translated_cell := renderCell d.translated } :: docPagesAux ds (i + 1)

/-- The page sections `create_translation_document` writes, in order
(src/main.py lines 50-144), one per record of `page_data`. -/
def create_translation_document (page_data : List PageRecord) : List DocPage :=
  docPagesAux page_data 0

end PdfTranslator

namespace PdfTranslator

/-! ## Helper lemmas and concrete fixtures -/

/-- The translation loop appends one record per page. -/
theorem mainLoopAux_length (tr : Nat → String → String) :
    ∀ (ts : List String) (n : Nat), (mainLoopAux tr ts n).length = ts.length
  | [], _ => rfl
  | _ :: ts, n => by
      simp only [mainLoopAux, List.length_cons, mainLoopAux_length tr ts (n + 1)]

/-- Positionwise characterization of the translation loop. -/
theorem mainLoopAux_getElem? (tr : Nat → String → String) :
    ∀ (ts : List String) (n i : Nat),
      (mainLoopAux tr ts n)[i]? =
        ts[i]?.map (fun t =>
          if pyStrip t = "" then { original := "", translated := "" }
          else { original := t, translated := tr (n + i) t })
  | [], _, i => by simp [mainLoopAux]
  | t :: ts, n, 0 => by simp [mainLoopAux]
  | t :: ts, n, i + 1 => by
      have ih := mainLoopAux_getElem? tr ts (n + 1) i
      simp only [mainLoopAux, List.getElem?_cons_succ, ih, Nat.add_assoc,
        Nat.add_comm 1 i]

/-- The document loop writes one page section per record. -/
theorem docPagesAux_length :
    ∀ (ds : List PageRecord) (n : Nat), (docPagesAux ds n).length = ds.length
  | [], _ => rfl
  | _ :: ds, n => by
      simp only [docPagesAux, List.length_cons, docPagesAux_length ds (n + 1)]

/-- Positionwise characterization of the document loop. -/
theorem docPagesAux_getElem? :
    ∀ (ds : List PageRecord) (n i : Nat),
      (docPagesAux ds n)[i]? =
        ds[i]?.map (fun d =>
          { page_heading := n + i + 1, original_cell := renderCell d.original,
            translated_cell := renderCell d.translated })
  | [], _, i => by simp [docPagesAux]
  | d :: ds, n, 0 => by simp [docPagesAux]
  | d :: ds, n, i + 1 => by
      have ih := docPagesAux_getElem? ds (n + 1) i
      simp only [docPagesAux, List.getElem?_cons_succ, ih, Nat.add_assoc,
        Nat.add_comm 1 i]

/-- The default template always formats: its three placeholder names are
exactly the keyword arguments the code passes to `format`. -/
theorem formatPrompt_default (srcLang tgtLang text : String) :
    formatPrompt DEFAULT_PROMPT_TEMPLATE srcLang tgtLang text =
      Except.ok ("Translate the following " ++ (srcLang ++ (" text to " ++ (tgtLang ++
        (". Provide only the translated text, without any introductory phrases, explanations, or the original text itself:\n\n" ++ (text ++ "")))))) := rfl

/-- A record stored by a successful run sits at the position of its page:
if the run returned normally with the record list `rs` and the non-blank
page at index `i` had its one translation call return normally with `r`,
then `rs` holds `(page text, r.1)` at index `i`. -/
theorem mainLoopPyAux_stores (tmpl : List TTok) (srcLang tgtLang : String)
    (net : Nat → Nat → NetOutcome) :
    ∀ (ts : List String) (n i : Nat) (u : String) (rs : List PageRecord)
      (r : String × Nat),
      ts[i]? = some u → pyStrip u ≠ "" →
      mainLoopPyAux tmpl srcLang tgtLang net ts n = Except.ok rs →
      translate_text_via_api u tmpl srcLang tgtLang (net (n + i)) = Except.ok r →
      rs[i]? = some { original := u, translated := r.1 }
  | [], n, i, u, rs, r => by
      intro hp _ _ _
      simp at hp
  | t :: ts, n, 0, u, rs, r => by
      intro hp hnb hm hr
      simp only [List.getElem?_cons_zero, Option.some.injEq] at hp
      subst hp
      rw [Nat.add_zero] at hr
      simp only [mainLoopPyAux, if_neg hnb, hr] at hm
      cases hrec : mainLoopPyAux tmpl srcLang tgtLang net ts (n + 1) with
      | ok rs' =>
          rw [hrec] at hm
          simp only [Except.ok.injEq] at hm
          subst hm
          simp
      | error e => rw [hrec] at hm; simp at hm
  | t :: ts, n, i + 1, u, rs, r => by
      intro hp hnb hm hr
      simp only [List.getElem?_cons_succ] at hp
      have hr' : translate_text_via_api u tmpl srcLang tgtLang (net ((n + 1) + i)) =
          Except.ok r := by
        have e : (n + 1) + i = n + (i + 1) := by omega
        rw [e]
        exact hr
      simp only [mainLoopPyAux] at hm
      by_cases hb : pyStrip t = ""
      · rw [if_pos hb] at hm
        cases hrec : mainLoopPyAux tmpl srcLang tgtLang net ts (n + 1) with
        | ok rs' =>
            rw [hrec] at hm
            simp only [Except.ok.injEq] at hm
            subst hm
            simpa using mainLoopPyAux_stores tmpl srcLang tgtLang net ts (n + 1) i
              u rs' r hp hnb hrec hr'
        | error e => rw [hrec] at hm; simp at hm
      · rw [if_neg hb] at hm
        cases htr : translate_text_via_api t tmpl srcLang tgtLang (net n) with
        | error e => rw [htr] at hm; simp at hm
        | ok r0 =>
            rw [htr] at hm
            cases hrec : mainLoopPyAux tmpl srcLang tgtLang net ts (n + 1) with
            | ok rs' =>
                rw [hrec] at hm
                simp only [Except.ok.injEq] at hm
                subst hm
                simpa using mainLoopPyAux_stores tmpl srcLang tgtLang net ts (n + 1) i
                  u rs' r hp hnb hrec hr'
            | error e => rw [hrec] at hm; simp at hm

/-- Adding a key/value pair for a different key does not change a lookup. -/
theorem lookupKey_cons_ne (sec : List (String × String)) (k v key : String)
    (h : k ≠ key) : lookupKey ((k, v) :: sec) key = lookupKey sec key := by
  simp [lookupKey, List.find?_cons_of_neg, h]

/-- A backend reply whose first choice has a message without a content
field. -/
def noContentResponse : ResponseData :=
  { choices := some [{ message := some { content := none } }] }

/-- A backend reply carrying a translation. -/
def goodResponse : ResponseData :=
  { choices := some [{ message := some { content := some "Bonjour" } }] }

/-- A backend that fails its first call and would succeed on any later
one. -/
def failThenOk : Nat → NetOutcome
  | 0 => NetOutcome.timeout
  | _ + 1 => NetOutcome.ok goodResponse

/-- A backend whose every call times out, for every page. -/
def netAllTimeout : Nat → Nat → NetOutcome := fun _ _ => NetOutcome.timeout

/-- A prompt template that additionally mentions a batch-context
placeholder, as the spec's four-placeholder contract would require. -/
def contextTemplate : List TTok :=
  [ TTok.ph "source_language", TTok.lit " to ", TTok.ph "target_language",
    TTok.lit " with context ", TTok.ph "batch_context",
    TTok.lit ": ", TTok.ph "text_to_translate" ]

/-- A concrete translation function used to instantiate loop theorems. -/
def trBang : Nat → String → String := fun _ t => t ++ "!"

/-- The prompt template `"\x7b\x7d"`: a single auto-numbered positional
field, one of the template forms whose formatting exception the code does
not catch. -/
def positionalTemplate : List TTok := [TTok.pos none]

end PdfTranslator

namespace PdfTranslator

/-! ## Claim theorems -/

/-- Claim C1: for every input page sequence and every behavior of the
per-page translation function (including error-message results for pages
whose translation could not be obtained), the main loop emits exactly one
record per input page and the rendered document has exactly one page
section per input page, both in original page order: the record at
position `i` comes from input page `i` (and from nothing else), a failed
page is present carrying whatever string the translation step produced,
and output length always equals input page count. -/
theorem main_emits_one_record_per_page_in_order
    (pages : List String) (tr : Nat → String → String) :
    (mainLoop pages tr).length = pages.length ∧
    (create_translation_document (mainLoop pages tr)).length = pages.length ∧
    ∀ i t, pages[i]? = some t →
      (mainLoop pages tr)[i]? =
        some (if pyStrip t = "" then ({ original := "", translated := "" } : PageRecord)
              else { original := t, translated := tr i t }) ∧
      (create_translation_document (mainLoop pages tr))[i]? =
        some (if pyStrip t = "" then
                ({ page_heading := i + 1, original_cell := " ",
                   translated_cell := " " } : DocPage)
              else
                { page_heading := i + 1, original_cell := renderCell t,
                  translated_cell := renderCell (tr i t) }) := by
  refine ⟨mainLoopAux_length tr pages 0, ?_, ?_⟩
  · rw [create_translation_document, docPagesAux_length, mainLoop,
      mainLoopAux_length]
  · intro i t hp
    have hm : (mainLoop pages tr)[i]? =
        some (if pyStrip t = "" then ({ original := "", translated := "" } : PageRecord)
              else { original := t, translated := tr i t }) := by
      rw [mainLoop, mainLoopAux_getElem?, hp]
      simp
    refine ⟨hm, ?_⟩
    rw [create_translation_document, docPagesAux_getElem?, hm]
    by_cases hb : pyStrip t = "" <;> simp [hb, renderCell]

/-- Concrete instance of C1: a two-page input (one real page, one blank
page) yields exactly two records, in order. -/
theorem main_emits_one_record_per_page_in_order_check :
    (mainLoop ["Hello", " "] trBang).length = 2 ∧
    (mainLoop ["Hello", " "] trBang)[1]? = some { original := "", translated := "" } := by
  have h := main_emits_one_record_per_page_in_order ["Hello", " "] trBang
  refine ⟨h.1, ?_⟩
  have h2 := (h.2.2 1 " " rfl).1
  rw [h2]
  rfl

/-- Claim C8: blank (empty or whitespace-only) input text makes
`translate_text_via_api` return the empty string normally with zero
backend calls, for every template, language pair and backend behavior
(the check precedes the `format` call, so no prompt is built — not even a
malformed template is touched — and the backend is never contacted). -/
theorem blank_text_returns_empty_without_call
    (text : String) (tmpl : List TTok) (srcLang tgtLang : String)
    (net : Nat → NetOutcome) (h : pyStrip text = "") :
    translate_text_via_api text tmpl srcLang tgtLang net = Except.ok ("", 0) := by
  simp [translate_text_via_api, h]

/-- Concrete instance of C8: a whitespace-only text returns `""` with
zero backend calls. -/
theorem blank_text_returns_empty_without_call_check :
    translate_text_via_api " \t\n " DEFAULT_PROMPT_TEMPLATE "English" "Farsi"
        (fun _ => NetOutcome.ok goodResponse) = Except.ok ("", 0) :=
  blank_text_returns_empty_without_call " \t\n " DEFAULT_PROMPT_TEMPLATE
    "English" "Farsi" (fun _ => NetOutcome.ok goodResponse) (by decide)

/-- Claim C10: a page whose extracted text is empty or whitespace-only
contributes the record `("", "")` — its original whitespace text is not
preserved — and the record does not depend on the translation function at
all (no backend call is made for that page). -/
theorem blank_page_record_is_empty_pair
    (pages : List String) (tr : Nat → String → String) (i : Nat) (t : String)
    (hp : pages[i]? = some t) (hb : pyStrip t = "") :
    (mainLoop pages tr)[i]? = some { original := "", translated := "" } ∧
    ∀ tr', (mainLoop pages tr')[i]? = some { original := "", translated := "" } := by
  constructor
  · rw [mainLoop, mainLoopAux_getElem?, hp]
    simp [hb]
  · intro tr'
    rw [mainLoop, mainLoopAux_getElem?, hp]
    simp [hb]

/-- Concrete instance of C10: the whitespace page `" \t"` produces the
record `("", "")` under any translation function. -/
theorem blank_page_record_is_empty_pair_check :
    (mainLoop ["x", " \t"] trBang)[1]? = some { original := "", translated := "" } :=
  (blank_page_record_is_empty_pair ["x", " \t"] trBang 1 " \t" rfl (by decide)).1

end PdfTranslator

namespace PdfTranslator

/-- Counterexample to claim C9: `translate_text_via_api` does raise to
its caller on some invalid prompt templates, because src/main.py lines
211-222 guard the `format` call with `except KeyError` only. A template
consisting of a positional field raises an uncaught `IndexError` — and a
run over a one-page document dies with it, producing no record list —
while a `:d` format spec on a recognized name and a lone brace each raise
an uncaught `ValueError`, instead of any error-message string being
returned. -/
theorem invalid_template_raises_to_caller :
    translate_text_via_api "Hello" positionalTemplate "English" "Farsi"
        (fun _ => NetOutcome.ok goodResponse) = Except.error FmtError.indexError ∧
    mainLoopPy positionalTemplate "English" "Farsi"
        (fun _ _ => NetOutcome.ok goodResponse) ["Hello"] =
      Except.error FmtError.indexError ∧
    translate_text_via_api "Hello" [TTok.phIntSpec "source_language"] "English"
        "Farsi" (fun _ => NetOutcome.ok goodResponse) =
      Except.error (FmtError.valueError "Unknown format code d for object of type str") ∧
    translate_text_via_api "Hello" [TTok.loneBrace] "English" "Farsi"
        (fun _ => NetOutcome.ok goodResponse) =
      Except.error (FmtError.valueError "Single brace encountered in format string") := by
  exact ⟨rfl, rfl, rfl, rfl⟩

/-- Claim C9 as amended: on a timeout, a connection failure or non-success
HTTP status, any other exception such as an unparseable body, and on an
invalid template whose failure is an unknown placeholder name (`KeyError`
— the only exception class the code catches around `format`),
`translate_text_via_api` returns normally with a human-readable
error-message string, and a run that completes stores whatever string the
call returned verbatim as the page's `translated` field, with no distinct
failure state; but a template whose formatting fails with any other
exception class (a positional field, a `:d` spec, a lone brace) raises
that exception uncaught to the caller. -/
theorem translate_errors_become_strings_stored_verbatim
    (tmpl : List TTok) (srcLang tgtLang : String) (net : Nat → Nat → NetOutcome)
    (pages : List String) (i : Nat) (t : String)
    (hp : pages[i]? = some t) (hnb : pyStrip t ≠ "") :
    (∀ name, formatPrompt tmpl srcLang tgtLang t =
        Except.error (FmtError.keyError name) →
      translate_text_via_api t tmpl srcLang tgtLang (net i) =
        Except.ok ("Error: Invalid prompt template", 0)) ∧
    (∀ e, formatPrompt tmpl srcLang tgtLang t = Except.error e →
      (∀ name, e ≠ FmtError.keyError name) →
      translate_text_via_api t tmpl srcLang tgtLang (net i) = Except.error e) ∧
    (∀ pr, formatPrompt tmpl srcLang tgtLang t = Except.ok pr →
      (net i 0 = NetOutcome.timeout →
        translate_text_via_api t tmpl srcLang tgtLang (net i) =
          Except.ok ("Translation error: Timeout", 1)) ∧
      (∀ e, net i 0 = NetOutcome.reqError e →
        translate_text_via_api t tmpl srcLang tgtLang (net i) =
          Except.ok ("Translation error: " ++ e, 1)) ∧
      (∀ e, net i 0 = NetOutcome.otherError e →
        translate_text_via_api t tmpl srcLang tgtLang (net i) =
          Except.ok ("Translation error: " ++ e, 1)) ∧
      (∀ d, net i 0 = NetOutcome.ok d →
        translate_text_via_api t tmpl srcLang tgtLang (net i) =
          Except.ok (extractContent d, 1))) ∧
    (∀ rs r, mainLoopPy tmpl srcLang tgtLang net pages = Except.ok rs →
      translate_text_via_api t tmpl srcLang tgtLang (net i) = Except.ok r →
      rs[i]? = some { original := t, translated := r.1 }) := by
  refine ⟨?_, ?_, ?_, ?_⟩
  · intro name hfmt
    simp [translate_text_via_api, hnb, hfmt]
  · intro e hfmt hne
    cases e with
    | keyError name => exact absurd rfl (hne name)
    | indexError => simp [translate_text_via_api, hnb, hfmt]
    | valueError msg => simp [translate_text_via_api, hnb, hfmt]
  · intro pr hfmt
    refine ⟨?_, ?_, ?_, ?_⟩
    · intro hn; simp [translate_text_via_api, hnb, hfmt, hn]
    · intro e hn; simp [translate_text_via_api, hnb, hfmt, hn]
    · intro e hn; simp [translate_text_via_api, hnb, hfmt, hn]
    · intro d hn; simp [translate_text_via_api, hnb, hfmt, hn]
  · intro rs r hrun htr
    have htr' : translate_text_via_api t tmpl srcLang tgtLang (net (0 + i)) =
        Except.ok r := by
      rw [Nat.zero_add]
      exact htr
    exact mainLoopPyAux_stores tmpl srcLang tgtLang net pages 0 i t rs r
      hp hnb hrun htr'

/-- Concrete instance of the amended C9: a page whose single request
times out gets the timeout message as its returned string. -/
theorem translate_errors_become_strings_stored_verbatim_check :
    translate_text_via_api "Hi" DEFAULT_PROMPT_TEMPLATE "English" "Farsi"
        (netAllTimeout 0) = Except.ok ("Translation error: Timeout", 1) :=
  ((translate_errors_become_strings_stored_verbatim DEFAULT_PROMPT_TEMPLATE
      "English" "Farsi" netAllTimeout ["Hi"] 0 "Hi" rfl (by decide)).2.2.1
    _ rfl).1 rfl

/-- Counterexample to claim C4: on a backend reply in which the content
extraction finds nothing, `translate_text_via_api` does not raise any
`ParseError` — it returns the fixed string `"Error processing API
response"` as an ordinary value, and the main loop records that string as
the page's translated text. -/
theorem parse_failure_returns_error_string_not_raise :
    extractContent noContentResponse = "Error processing API response" ∧
    mainLoopPy DEFAULT_PROMPT_TEMPLATE "Spanish" "English"
        (fun _ _ => NetOutcome.ok noContentResponse) ["hola"] =
      Except.ok
        [{ original := "hola", translated := "Error processing API response" }] := by
  exact ⟨rfl, rfl⟩

/-- Claim C4 as amended: whenever the expected `choices[0].message.content`
structure is absent (the code's one structural check — there is no
primary/alternate pattern pair), the response step returns the fixed
string `"Error processing API response"`, never any content-derived
value, and a call through `translate_text_via_api` on such a reply yields
exactly that string. -/
theorem parse_failure_yields_fixed_error_string
    (d : ResponseData) (h : hasContent d = false) :
    extractContent d = "Error processing API response" ∧
    ∀ srcLang tgtLang text, pyStrip text ≠ "" →
      translate_text_via_api text DEFAULT_PROMPT_TEMPLATE srcLang tgtLang
          (fun _ => NetOutcome.ok d) =
        Except.ok ("Error processing API response", 1) := by
  have hex : extractContent d = "Error processing API response" := by
    simp [extractContent, h]
  refine ⟨hex, ?_⟩
  intro srcLang tgtLang text hnb
  simp [translate_text_via_api, hnb, formatPrompt_default, hex]

/-- Concrete instance of the amended C4. -/
theorem parse_failure_yields_fixed_error_string_check :
    translate_text_via_api "hello" DEFAULT_PROMPT_TEMPLATE "English" "Farsi"
        (fun _ => NetOutcome.ok noContentResponse) =
      Except.ok ("Error processing API response", 1) :=
  (parse_failure_yields_fixed_error_string noContentResponse rfl).2
    "English" "Farsi" "hello" (by decide)

/-- Counterexample to claim C5: against a backend that fails the first
attempt and would succeed on the next one (the claim's scenario with
`max_retries = 1`, predicting success after two invocations), the code
returns the timeout error having invoked the backend exactly once — no
retry ever happens. -/
theorem failed_attempt_not_retried :
    translate_text_via_api "Hello" DEFAULT_PROMPT_TEMPLATE "English" "French"
        failThenOk = Except.ok ("Translation error: Timeout", 1) ∧
    translate_text_via_api "Hello" DEFAULT_PROMPT_TEMPLATE "English" "French"
        (fun _ => failThenOk 1) = Except.ok ("Bonjour", 1) := by
  exact ⟨rfl, rfl⟩

/-- Claim C5 as amended: `translate_text_via_api` performs at most one
backend invocation per call, and its result depends only on the first
invocation's outcome — a failed attempt is never retried, its error
message becomes the page's result. -/
theorem translate_makes_at_most_one_backend_call
    (text : String) (tmpl : List TTok) (srcLang tgtLang : String)
    (net net' : Nat → NetOutcome) (h : net 0 = net' 0) :
    postCount (translate_text_via_api text tmpl srcLang tgtLang net) ≤ 1 ∧
    translate_text_via_api text tmpl srcLang tgtLang net =
      translate_text_via_api text tmpl srcLang tgtLang net' := by
  constructor
  · unfold translate_text_via_api
    split
    · simp [postCount]
    · split
      · simp [postCount]
      · simp [postCount]
      · cases net 0 <;> simp [postCount]
  · unfold translate_text_via_api
    rw [h]

/-- Concrete instance of the amended C5. -/
theorem translate_makes_at_most_one_backend_call_check :
    postCount (translate_text_via_api "Hello" DEFAULT_PROMPT_TEMPLATE "English"
        "French" failThenOk) ≤ 1 ∧
    translate_text_via_api "Hello" DEFAULT_PROMPT_TEMPLATE "English" "French"
        failThenOk =
      translate_text_via_api "Hello" DEFAULT_PROMPT_TEMPLATE "English" "French"
        (fun _ => NetOutcome.timeout) :=
  translate_makes_at_most_one_backend_call "Hello" DEFAULT_PROMPT_TEMPLATE
    "English" "French" failThenOk (fun _ => NetOutcome.timeout) rfl

end PdfTranslator

namespace PdfTranslator

/-- Counterexample to claim C6: a prompt template carrying a batch-context
placeholder is not filled in — it hits the `KeyError` path and the call
returns the invalid-template error with zero backend requests — and the
default template contains exactly three placeholders, with no context
field among them. -/
theorem context_placeholder_not_recognized :
    translate_text_via_api "Hello" contextTemplate "English" "Farsi"
        (fun _ => NetOutcome.ok goodResponse) =
      Except.ok ("Error: Invalid prompt template", 0) ∧
    placeholderNames DEFAULT_PROMPT_TEMPLATE =
      ["source_language", "target_language", "text_to_translate"] := by
  exact ⟨rfl, rfl⟩

/-- Claim C6 as amended: the client substitutes exactly three recognized
placeholders — source language, target language, and the text to
translate — into the prompt template; any other placeholder name
(including any batch-context one) is unrecognized; the default template
always formats to the full prompt; and the request is submitted with a
bounded 180-second timeout. -/
theorem exactly_three_placeholders_substituted (name srcLang tgtLang text : String) :
    ((subst srcLang tgtLang text (TTok.ph name)).isOk =
      (name == "source_language" || name == "target_language" ||
       name == "text_to_translate")) ∧
    formatPrompt DEFAULT_PROMPT_TEMPLATE srcLang tgtLang text =
      Except.ok ("Translate the following " ++ (srcLang ++ (" text to " ++ (tgtLang ++
        (". Provide only the translated text, without any introductory phrases, explanations, or the original text itself:\n\n" ++ (text ++ "")))))) ∧
    REQUEST_TIMEOUT_SECONDS = 180 := by
  refine ⟨?_, formatPrompt_default srcLang tgtLang text, rfl⟩
  simp only [subst, kwLookup]
  split_ifs with h1 h2 h3
  · simp [Except.isOk, Except.toBool, h1]
  · simp [Except.isOk, Except.toBool, h2]
  · simp [Except.isOk, Except.toBool, h3]
  · simp [Except.isOk, Except.toBool, beq_iff_eq, h1, h2, h3]

/-- Counterexample to claim C7: the configuration reader's result is
unchanged by adding concurrency, batch-size, retry-count and retry-delay
options — none of them is recognized or honored. -/
theorem scheduler_options_ignored_by_config :
    read_api_config (some [("url", "http://localhost:6969/v1/chat/completions"),
        ("model", "gemini"), ("workers", "8"), ("max_chars_per_batch", "4000"),
        ("max_retries", "5"), ("retry_delay", "2")]) =
      read_api_config (some [("url", "http://localhost:6969/v1/chat/completions"),
        ("model", "gemini")]) := by
  rfl

/-- Claim C7 as amended: `read_api_config` recognizes exactly the keys
`url`, `model`, `font_name` and `prompt_template` of the `[API]` section
(the last two falling back to defaults when absent or empty): any other
key — a concurrency level, a batch-size budget, a retry count, a retry
delay — leaves its result unchanged. -/
theorem config_recognizes_only_four_keys :
    (∀ (sec : List (String × String)) (k v : String),
        k ≠ "url" → k ≠ "model" → k ≠ "font_name" → k ≠ "prompt_template" →
        read_api_config (some ((k, v) :: sec)) = read_api_config (some sec)) ∧
    (∀ u m f p, f ≠ "" → p ≠ "" →
        read_api_config (some [("url", u), ("model", m), ("font_name", f),
            ("prompt_template", p)]) =
          { api_url := some u, api_model := some m, font_name := f,
            prompt_template := p }) := by
  constructor
  · intro sec k v h1 h2 h3 h4
    simp only [read_api_config, lookupKey_cons_ne _ _ _ _ h1,
      lookupKey_cons_ne _ _ _ _ h2, lookupKey_cons_ne _ _ _ _ h3,
      lookupKey_cons_ne _ _ _ _ h4]
  · intro u m f p hf hp
    simp [read_api_config, lookupKey, List.find?, hf, hp]

/-- Concrete instance of the amended C7. -/
theorem config_recognizes_only_four_keys_check :
    read_api_config (some [("max_retries", "5")]) = read_api_config (some []) ∧
    read_api_config (some [("url", "u"), ("model", "m"), ("font_name", "Tahoma"),
        ("prompt_template", "T")]) =
      { api_url := some "u", api_model := some "m", font_name := "Tahoma",
        prompt_template := "T" } :=
  ⟨config_recognizes_only_four_keys.1 [] "max_retries" "5"
      (by decide) (by decide) (by decide) (by decide),
   config_recognizes_only_four_keys.2 "u" "m" "Tahoma" "T"
      (by decide) (by decide)⟩

end PdfTranslator
